import Mathlib

/-!
Shallow embedding of the DemoFlash startup-evaluation core
(`api_server.py` and `api_integration_advanced.py`): the stage-profile
lookup tables, critical-failure detection, pillar risk adjustment, the
verdict decision table, probability reconciliation, the model-family
probability fusion, and insight generation.  Probabilities and scores are
modelled as rationals; the Python metrics dict is modelled as a record of
optional fields, with `Option.getD` standing for `dict.get(key, default)`.
-/

namespace Flash

/-- The four CAMP pillar scores, keyed `capital / advantage / market /
people` (the shape of the pillar-score dicts in the code). -/
structure PillarScores where
  capital : ℚ
  advantage : ℚ
  market : ℚ
  people : ℚ
deriving DecidableEq

/-- Dict-style access `scores[name]` for the four pillar keys the code
iterates over. -/
def PillarScores.look (ps : PillarScores) (name : String) : ℚ :=
  if name = "capital" then ps.capital
  else if name = "advantage" then ps.advantage
  else if name = "market" then ps.market
  else ps.people

/-- Insertion order of the pillar dicts built by the `/predict` endpoint
(`capital`, `advantage`, `market`, `people`). -/
def pillar_names : List String := ["capital", "advantage", "market", "people"]

/-- The metrics dict passed around as `data: Dict[str, Any]`; every field
read through `data.get(...)` in the evaluation core is optional here, and
`none` models an absent key. -/
structure MetricsData where
  funding_stage : Option String
  runway_months : Option ℚ
  burn_multiple : Option ℚ
  customer_concentration_percent : Option ℚ
  churn_rate : Option ℚ
  founders_count : Option ℚ
  key_person_dependency : Option Bool
  regulatory_risk_score : Option ℚ
  competition_intensity : Option ℚ
  has_debt : Option Bool
  debt_to_equity_ratio : Option ℚ
  investor_tier_primary : Option String
  network_effects_present : Option Bool
  switching_cost_score : Option ℚ
  prior_successful_exits_count : Option ℚ
  team_diversity_percent : Option ℚ
  patent_count : Option ℚ
  net_dollar_retention_percent : Option ℚ
  revenue_growth_rate_percent : Option ℚ
  product_retention_30d : Option ℚ
deriving DecidableEq

/-- A metrics dict with every key absent. -/
def emptyData : MetricsData :=
  ⟨none, none, none, none, none, none, none, none, none, none,
   none, none, none, none, none, none, none, none, none, none⟩

/-- The `weights` table of `get_stage_weights`, keyed by display-case
stage names exactly as in the source. -/
def stage_weights_table : List (String × PillarScores) :=
  [("Pre-seed", ⟨0.15, 0.30, 0.20, 0.35⟩),
   ("Seed", ⟨0.20, 0.30, 0.25, 0.25⟩),
   ("Series A", ⟨0.25, 0.25, 0.30, 0.20⟩),
   ("Series B", ⟨0.25, 0.25, 0.30, 0.20⟩),
   ("Series C", ⟨0.30, 0.20, 0.30, 0.20⟩)]

/-- `get_stage_weights`: dict lookup with fallback to the `"Seed"` row
(`weights.get(funding_stage, weights["Seed"])`). -/
def get_stage_weights (funding_stage : String) : PillarScores :=
  (stage_weights_table.lookup funding_stage).getD ⟨0.20, 0.30, 0.25, 0.25⟩

/-- The `thresholds` table of `get_stage_thresholds`, keyed by
display-case stage names exactly as in the source. -/
def stage_thresholds_table : List (String × PillarScores) :=
  [("Pre-seed", ⟨0.30, 0.40, 0.30, 0.50⟩),
   ("Seed", ⟨0.35, 0.45, 0.40, 0.50⟩),
   ("Series A", ⟨0.45, 0.50, 0.50, 0.45⟩),
   ("Series B", ⟨0.50, 0.55, 0.55, 0.50⟩),
   ("Series C", ⟨0.55, 0.60, 0.60, 0.55⟩)]

/-- `get_stage_thresholds`: dict lookup with fallback to the `"Seed"` row. -/
def get_stage_thresholds (funding_stage : String) : PillarScores :=
  (stage_thresholds_table.lookup funding_stage).getD ⟨0.35, 0.45, 0.40, 0.50⟩

def runwayFailureMsg : String :=
  "Less than 3 months runway - immediate funding required"

def burnFailureMsg : String :=
  "Burning >5x revenue - unsustainable burn rate"

def concentrationFailureMsg : String :=
  "Over 80% customer concentration - extreme dependency risk"

def churnFailureMsg : String :=
  "Monthly churn >20% - severe retention crisis"

def founderFailureMsg : String :=
  "Single founder with high key person risk"

/-- `check_critical_failures`: the five independent critical-failure
rules, collected in source order.  `data.get(key, default)` is
`Option.getD`. -/
def check_critical_failures (data : MetricsData) : List String :=
  (if data.runway_months.getD 0 < 3 then [runwayFailureMsg] else []) ++
  (if data.burn_multiple.getD 0 > 5 then [burnFailureMsg] else []) ++
  (if data.customer_concentration_percent.getD 0 > 80 then [concentrationFailureMsg] else []) ++
  (if data.churn_rate.getD 0 > 20 then [churnFailureMsg] else []) ++
  (if data.founders_count.getD 1 = 1 ∧ data.key_person_dependency.getD true then
    [founderFailureMsg] else [])

/-- `calculate_risk_adjusted_score`: pillar-specific additive penalties,
then cross-pillar bonuses, then clamp to [0,1], exactly as in the
source. -/
def calculate_risk_adjusted_score (base_score : ℚ) (pillar_name : String)
    (data : MetricsData) : ℚ :=
  let adjusted := base_score
  let adjusted :=
    if pillar_name = "market" then
      let a := if data.customer_concentration_percent.getD 0 > 50 then adjusted - 0.1 else adjusted
      let a := if data.regulatory_risk_score.getD 0 > 4 then a - 0.15 else a
      if data.competition_intensity.getD 0 ≥ 4 then a - 0.05 else a
    else if pillar_name = "capital" then
      let a :=
        if data.has_debt.getD false ∧ data.debt_to_equity_ratio.getD 0 > 2 then
          adjusted - 0.1
        else adjusted
      if ¬ (data.investor_tier_primary = some "Tier 1" ∨
            data.investor_tier_primary = some "Tier 2") then
        a - 0.05
      else a
    else if pillar_name = "advantage" then
      let a := if ¬ data.network_effects_present.getD false then adjusted - 0.05 else adjusted
      if data.switching_cost_score.getD 0 < 3 then a - 0.05 else a
    else if pillar_name = "people" then
      let a := if data.prior_successful_exits_count.getD 0 = 0 then adjusted - 0.05 else adjusted
      if data.team_diversity_percent.getD 0 < 20 then a - 0.05 else a
    else adjusted
  let adjusted :=
    if pillar_name = "advantage" ∧ data.patent_count.getD 0 > 5 then adjusted + 0.05 else adjusted
  let adjusted :=
    if pillar_name = "market" ∧ data.net_dollar_retention_percent.getD 0 > 130 then
      adjusted + 0.1
    else adjusted
  let adjusted :=
    if pillar_name = "people" ∧ data.prior_successful_exits_count.getD 0 > 1 then
      adjusted + 0.1
    else adjusted
  max 0 (min 1 adjusted)

/-- Step 4 of `evaluate_startup_comprehensive`: the pillars whose adjusted
score falls below the stage threshold, in dict iteration order. -/
def below_threshold_of (adjusted thresholds : PillarScores) : List String :=
  pillar_names.filter (fun p => adjusted.look p < thresholds.look p)

/-- Step 5 of `evaluate_startup_comprehensive`: the stage-weighted sum of
the adjusted pillar scores. -/
def weighted_score_of (adjusted weights : PillarScores) : ℚ :=
  (pillar_names.map (fun p => adjusted.look p * weights.look p)).sum

/-- Step 6 of `evaluate_startup_comprehensive`: the ordered
verdict/strength/risk decision chain, exactly as in the source
(`if critical_failures: ... elif ... else ...`). -/
def determine_verdict (critical_failures : List String)
    (below_threshold : List String) (weighted_score : ℚ) :
    String × String × String :=
  if critical_failures ≠ [] then ("FAIL", "CRITICAL", "Critical Risk")
  else if below_threshold.length = 0 ∧ weighted_score ≥ 0.6 then
    ("PASS", "STRONG", "Low Risk")
  else if below_threshold.length ≤ 1 ∧ weighted_score ≥ 0.55 then
    ("CONDITIONAL PASS", "MODERATE", "Medium Risk")
  else if weighted_score ≥ 0.5 ∧ below_threshold.length ≤ 2 then
    ("CONDITIONAL PASS", "WEAK", "Medium-High Risk")
  else ("FAIL", "WEAK", "High Risk")

/-- The spec's decision table of section 4.4, written from the spec's own
words (top-to-bottom, first match wins), for comparison with
`determine_verdict`. -/
def spec_decision_table (critical_failures : List String)
    (below_threshold : List String) (weighted_score : ℚ) :
    String × String × String :=
  if critical_failures ≠ [] then ("FAIL", "CRITICAL", "Critical Risk")
  else if below_threshold = [] ∧ weighted_score ≥ 0.60 then
    ("PASS", "STRONG", "Low Risk")
  else if below_threshold.length ≤ 1 ∧ weighted_score ≥ 0.55 then
    ("CONDITIONAL PASS", "MODERATE", "Medium Risk")
  else if weighted_score ≥ 0.50 ∧ below_threshold.length ≤ 2 then
    ("CONDITIONAL PASS", "WEAK", "Medium-High Risk")
  else ("FAIL", "WEAK", "High Risk")

/-- Step 7 of `evaluate_startup_comprehensive`: reconciliation of the
fused probability with the categorical verdict. -/
def reconcile_probability (verdict : String) (base_probability : ℚ) : ℚ :=
  if verdict = "FAIL" then min base_probability 0.45
  else if verdict = "CONDITIONAL PASS" then max 0.45 (min base_probability 0.65)
  else max 0.55 base_probability

/-- The result dict returned by `evaluate_startup_comprehensive`. -/
structure EvalResult where
  verdict : String
  strength : String
  risk_level : String
  adjusted_probability : ℚ
  weighted_score : ℚ
  adjusted_pillar_scores : PillarScores
  below_threshold : List String
  critical_failures : List String
  stage_weights : PillarScores
  stage_thresholds : PillarScores
deriving DecidableEq

/-- `evaluate_startup_comprehensive`: the full evaluation pipeline over
pillar scores, the metrics dict, and the base probability. -/
def evaluate_startup_comprehensive (pillar_scores : PillarScores)
    (data : MetricsData) (base_probability : ℚ) : EvalResult :=
  let funding_stage := data.funding_stage.getD "Seed"
  let critical_failures := check_critical_failures data
  let adjusted_scores : PillarScores :=
    ⟨calculate_risk_adjusted_score pillar_scores.capital "capital" data,
     calculate_risk_adjusted_score pillar_scores.advantage "advantage" data,
     calculate_risk_adjusted_score pillar_scores.market "market" data,
     calculate_risk_adjusted_score pillar_scores.people "people" data⟩
  let weights := get_stage_weights funding_stage
  let thresholds := get_stage_thresholds funding_stage
  let below_threshold := below_threshold_of adjusted_scores thresholds
  let weighted_score := weighted_score_of adjusted_scores weights
  let v := determine_verdict critical_failures below_threshold weighted_score
  let adjusted_probability := reconcile_probability v.1 base_probability
  { verdict := v.1
    strength := v.2.1
    risk_level := v.2.2
    adjusted_probability := adjusted_probability
    weighted_score := weighted_score
    adjusted_pillar_scores := adjusted_scores
    below_threshold := below_threshold
    critical_failures := critical_failures
    stage_weights := weights
    stage_thresholds := thresholds }

/-- The weighted-ensemble fusion step of `predict_advanced`
(`api_integration_advanced.py`): starting from the base probability with
weight 1.0, the stage opinion (weight 0.2), the industry opinion (weight
0.15) and the medium-term temporal opinion (weight 0.1) are each added
when available, and the running sum is divided by the accumulated
weight.  `temporal_preds` models the temporal-predictions dict (`none`
when the temporal model is not loaded); the guard mirrors
`if temporal_preds and 'medium_term' in temporal_preds`. -/
def fuse_probabilities (base_proba : ℚ) (stage_proba : Option ℚ)
    (industry_proba : Option ℚ)
    (temporal_preds : Option (List (String × ℚ))) : ℚ :=
  let final_proba := base_proba
  let weight_sum : ℚ := 1.0
  let s :=
    match stage_proba with
    | some p => (final_proba + p * 0.2, weight_sum + 0.2)
    | none => (final_proba, weight_sum)
  let s :=
    match industry_proba with
    | some p => (s.1 + p * 0.15, s.2 + 0.15)
    | none => s
  let s :=
    match temporal_preds with
    | some tp =>
      if tp ≠ [] then
        match tp.lookup "medium_term" with
        | some v => (s.1 + v * 0.1, s.2 + 0.1)
        | none => s
      else s
    | none => s
  s.1 / s.2

/-- The medium-term temporal opinion extracted from the
temporal-predictions dict, when present. -/
def temporal_medium (temporal_preds : Option (List (String × ℚ))) : Option ℚ :=
  temporal_preds.bind (fun tp => tp.lookup "medium_term")

/-- The numerator of the spec's model-family fusion formula: the base
probability plus each available weighted opinion. -/
def fusionNumerator (base_proba : ℚ) (stage_proba industry_proba tm : Option ℚ) : ℚ :=
  base_proba + (match stage_proba with | some p => p * 0.2 | none => 0) +
    (match industry_proba with | some p => p * 0.15 | none => 0) +
    (match tm with | some v => v * 0.1 | none => 0)

/-- The denominator of the spec's model-family fusion formula: 1.0 plus
the weights of the available opinions. -/
def fusionDenominator (stage_proba industry_proba tm : Option ℚ) : ℚ :=
  1 + (match stage_proba with | some _ => (0.2 : ℚ) | none => 0) +
    (match industry_proba with | some _ => (0.15 : ℚ) | none => 0) +
    (match tm with | some _ => (0.1 : ℚ) | none => 0)

/-- The insights emitted by `generate_insights`, one constructor per
message template of the source, carrying the numeric value interpolated
into the message where the source formats one in. -/
inductive Insight
  | runwayCritical
  | runwayWarning
  | burnHigh
  | capitalStrong
  | capitalWeak
  | advantageStrong
  | advantageWeak
  | marketStrong
  | marketWeak
  | peopleStrong
  | peopleWeak
  | hypergrowth (rate : ℚ)
  | strongGrowth (rate : ℚ)
  | excellentNDR (ndr : ℚ)
  | outstandingRetention (pct : ℤ)
  | concentrationRisk (pct : ℚ)
  | highChurn (rate : ℚ)
deriving DecidableEq

/-- The critical runway/burn warnings of `generate_insights` (emitted by
its first block, before every other insight). -/
def Insight.isCritical : Insight → Bool
  | .runwayCritical => true
  | .runwayWarning => true
  | .burnHigh => true
  | _ => false

/-- `generate_insights`: rule-based insights in source order, truncated
to 6.  The six fields the source indexes directly (`data['...']`) must be
present, else the Python function raises and no list is produced
(`none`); `churn_rate` is read with `data.get('churn_rate', 0)`.
`pillar_scores` is optional (`if pillar_scores:`), and `int(x)` on the
nonnegative retention value is the floor. -/
def generate_insights (data : MetricsData)
    (pillar_scores : Option PillarScores) : Option (List Insight) :=
  match data.runway_months, data.burn_multiple,
    data.revenue_growth_rate_percent, data.net_dollar_retention_percent,
    data.product_retention_30d, data.customer_concentration_percent with
  | some runway, some burn, some growth, some ndr, some ret30, some conc =>
    let critical :=
      (if runway < 6 then [Insight.runwayCritical]
       else if runway < 12 then [Insight.runwayWarning] else []) ++
      (if burn > 5 then [Insight.burnHigh] else [])
    let later :=
      (match pillar_scores with
       | some ps =>
         (if ps.capital > 0.7 then [Insight.capitalStrong]
          else if ps.capital < 0.3 then [Insight.capitalWeak] else []) ++
         (if ps.advantage > 0.7 then [Insight.advantageStrong]
          else if ps.advantage < 0.3 then [Insight.advantageWeak] else []) ++
         (if ps.market > 0.7 then [Insight.marketStrong]
          else if ps.market < 0.3 then [Insight.marketWeak] else []) ++
         (if ps.people > 0.7 then [Insight.peopleStrong]
          else if ps.people < 0.3 then [Insight.peopleWeak] else [])
       | none => []) ++
      (if growth > 150 then [Insight.hypergrowth growth]
       else if growth > 100 then [Insight.strongGrowth growth] else []) ++
      (if ndr > 120 then [Insight.excellentNDR ndr] else []) ++
      (if ret30 > 0.8 then [Insight.outstandingRetention ⌊ret30 * 100⌋] else []) ++
      (if conc > 50 then [Insight.concentrationRisk conc] else []) ++
      (if data.churn_rate.getD 0 > 10 then [Insight.highChurn (data.churn_rate.getD 0)] else [])
    some ((critical ++ later).take 6)
  | _, _, _, _, _, _ => none

/-- The funding stages admitted by the request schema
(`StartupMetrics.funding_stage`, regular expression
`^(pre_seed|seed|series_a|series_b|series_c|growth)$`). -/
def schema_funding_stages : List String :=
  ["pre_seed", "seed", "series_a", "series_b", "series_c", "growth"]

/-- The investor tiers admitted by the request schema
(`StartupMetrics.investor_tier_primary`, regular expression
`^(tier_1|tier_2|tier_3|none)$`). -/
def schema_investor_tiers : List String :=
  ["tier_1", "tier_2", "tier_3", "none"]

/-- A metrics dict carrying only an investor tier. -/
def tierData (t : String) : MetricsData :=
  { emptyData with investor_tier_primary := some t }

/-- A metrics dict with the six fields `generate_insights` indexes
directly, set so that only the critical runway warning fires. -/
def insightData : MetricsData :=
  { emptyData with
      runway_months := some 2
      burn_multiple := some 1
      revenue_growth_rate_percent := some 0
      net_dollar_retention_percent := some 0
      product_retention_30d := some 0
      customer_concentration_percent := some 0 }

section Theorems

/-- Helper: the code's verdict chain and the spec's decision table agree
for all inputs. -/
theorem determine_verdict_eq_spec (cf bt : List String) (w : ℚ) :
    determine_verdict cf bt w = spec_decision_table cf bt w := by
  unfold determine_verdict spec_decision_table
  simp only [List.length_eq_zero]
  norm_num

/-- C1: for every adjusted pillar score set, critical-failure list and
stage, the verdict classifier returns the verdict/strength/risk triple
given by the spec's ordered decision table (first match wins), and a
non-empty critical-failure list forces verdict FAIL regardless of the
weighted score. -/
theorem verdict_classifier_follows_decision_table (adjusted : PillarScores)
    (cf : List String) (stage : String) :
    determine_verdict cf (below_threshold_of adjusted (get_stage_thresholds stage))
        (weighted_score_of adjusted (get_stage_weights stage)) =
      spec_decision_table cf (below_threshold_of adjusted (get_stage_thresholds stage))
        (weighted_score_of adjusted (get_stage_weights stage)) ∧
      (cf ≠ [] →
        (determine_verdict cf (below_threshold_of adjusted (get_stage_thresholds stage))
            (weighted_score_of adjusted (get_stage_weights stage))).1 = "FAIL") := by
  refine ⟨determine_verdict_eq_spec _ _ _, fun h => ?_⟩
  unfold determine_verdict
  rw [if_pos h]

/-- Helper: all-ones adjusted scores give weighted score 1.0 under the
seed weights. -/
theorem seed_weighted_score_all_ones :
    weighted_score_of ⟨1, 1, 1, 1⟩ (get_stage_weights "Seed") = 1 := by
  simp [weighted_score_of, get_stage_weights, stage_weights_table,
    List.lookup, pillar_names, PillarScores.look]
  norm_num

/-- C1 witness: a critical failure forces FAIL even at weighted score
1.0 (all adjusted scores 1 under the seed weights). -/
theorem verdict_classifier_follows_decision_table_witness :
    weighted_score_of ⟨1, 1, 1, 1⟩ (get_stage_weights "Seed") = 1 ∧
      (determine_verdict ["overrun"]
          (below_threshold_of ⟨1, 1, 1, 1⟩ (get_stage_thresholds "Seed"))
          (weighted_score_of ⟨1, 1, 1, 1⟩ (get_stage_weights "Seed"))).1 = "FAIL" :=
  ⟨seed_weighted_score_all_ones,
   (verdict_classifier_follows_decision_table ⟨1, 1, 1, 1⟩ ["overrun"] "Seed").2
     (by decide)⟩

/-- C3: every funding stage admitted by the request schema misses the
display-case lookup tables, so on the validated domain both stage
lookups are the constant seed-profile function. -/
theorem schema_stage_lookup_is_constant_seed (s : String)
    (hs : s ∈ schema_funding_stages) :
    get_stage_weights s = get_stage_weights "Seed" ∧
      get_stage_thresholds s = get_stage_thresholds "Seed" := by
  fin_cases hs <;>
    exact ⟨by simp [get_stage_weights, stage_weights_table, List.lookup],
      by simp [get_stage_thresholds, stage_thresholds_table, List.lookup]⟩

/-- C3 witness: the schema stage `pre_seed` resolves to the seed
profile. -/
theorem schema_stage_lookup_is_constant_seed_witness :
    "pre_seed" ∈ schema_funding_stages ∧
      (get_stage_weights "pre_seed" = get_stage_weights "Seed" ∧
        get_stage_thresholds "pre_seed" = get_stage_thresholds "Seed") :=
  ⟨by decide, schema_stage_lookup_is_constant_seed "pre_seed" (by decide)⟩

/-- C4: the −0.05 investor-tier penalty fires for every schema-valid
tier value — including `tier_1` and `tier_2` — because the code compares
against the display-case strings `Tier 1` / `Tier 2`, which no
schema-valid value matches; only the display-case spelling avoids the
penalty. -/
theorem investor_tier_penalty_always_fires :
    calculate_risk_adjusted_score 0.5 "capital" (tierData "tier_1") = 0.45 ∧
      calculate_risk_adjusted_score 0.5 "capital" (tierData "tier_2") = 0.45 ∧
      calculate_risk_adjusted_score 0.5 "capital" (tierData "tier_3") = 0.45 ∧
      calculate_risk_adjusted_score 0.5 "capital" (tierData "none") = 0.45 ∧
      calculate_risk_adjusted_score 0.5 "capital" (tierData "Tier 1") = 0.5 := by
  refine ⟨?_, ?_, ?_, ?_, ?_⟩ <;>
    simp [calculate_risk_adjusted_score, tierData, emptyData] <;>
    norm_num [max_def, min_def]

/-- C5: the risk-adjusted pillar score is clamped to [0,1] for every
base score, pillar name and metrics dict. -/
theorem risk_adjusted_score_in_unit_interval (base_score : ℚ)
    (pillar_name : String) (d : MetricsData) :
    0 ≤ calculate_risk_adjusted_score base_score pillar_name d ∧
      calculate_risk_adjusted_score base_score pillar_name d ≤ 1 := by
  unfold calculate_risk_adjusted_score
  exact ⟨le_max_left _ _, max_le (by norm_num) (min_le_left _ _)⟩

/-- C7 counterexample: the people-pillar threshold strictly decreases
from seed (0.50) to series A (0.45), so the thresholds are not
non-decreasing along the stage order for all four pillars. -/
theorem people_threshold_drops_at_series_a :
    (get_stage_thresholds "Series A").people <
      (get_stage_thresholds "Seed").people := by
  simp [get_stage_thresholds, stage_thresholds_table, List.lookup]
  norm_num

/-- C7 amended: the capital, advantage and market thresholds are
non-decreasing along pre-seed < seed < series A < series B < series C;
the people threshold is non-decreasing at every adjacent step except
seed → series A, where it drops from 0.50 to 0.45. -/
theorem stage_thresholds_trend_upward :
    ((get_stage_thresholds "Pre-seed").capital ≤ (get_stage_thresholds "Seed").capital ∧
      (get_stage_thresholds "Seed").capital ≤ (get_stage_thresholds "Series A").capital ∧
      (get_stage_thresholds "Series A").capital ≤ (get_stage_thresholds "Series B").capital ∧
      (get_stage_thresholds "Series B").capital ≤ (get_stage_thresholds "Series C").capital) ∧
    ((get_stage_thresholds "Pre-seed").advantage ≤ (get_stage_thresholds "Seed").advantage ∧
      (get_stage_thresholds "Seed").advantage ≤ (get_stage_thresholds "Series A").advantage ∧
      (get_stage_thresholds "Series A").advantage ≤ (get_stage_thresholds "Series B").advantage ∧
      (get_stage_thresholds "Series B").advantage ≤ (get_stage_thresholds "Series C").advantage) ∧
    ((get_stage_thresholds "Pre-seed").market ≤ (get_stage_thresholds "Seed").market ∧
      (get_stage_thresholds "Seed").market ≤ (get_stage_thresholds "Series A").market ∧
      (get_stage_thresholds "Series A").market ≤ (get_stage_thresholds "Series B").market ∧
      (get_stage_thresholds "Series B").market ≤ (get_stage_thresholds "Series C").market) ∧
    ((get_stage_thresholds "Pre-seed").people ≤ (get_stage_thresholds "Seed").people ∧
      (get_stage_thresholds "Series A").people < (get_stage_thresholds "Seed").people ∧
      (get_stage_thresholds "Series A").people ≤ (get_stage_thresholds "Series B").people ∧
      (get_stage_thresholds "Series B").people ≤ (get_stage_thresholds "Series C").people) := by
  simp [get_stage_thresholds, stage_thresholds_table, List.lookup]
  norm_num

/-- C8: both stage lookups are total — any stage string outside the
fixed five-row table resolves to the seed profile. -/
theorem stage_lookup_fallback_to_seed (s : String)
    (hs : s ∉ ["Pre-seed", "Seed", "Series A", "Series B", "Series C"]) :
    get_stage_weights s = get_stage_weights "Seed" ∧
      get_stage_thresholds s = get_stage_thresholds "Seed" := by
  simp only [List.mem_cons, List.not_mem_nil, or_false, not_or] at hs
  obtain ⟨h1, h2, h3, h4, h5⟩ := hs
  have e1 : (s == "Pre-seed") = false := beq_eq_false_iff_ne.mpr h1
  have e2 : (s == "Seed") = false := beq_eq_false_iff_ne.mpr h2
  have e3 : (s == "Series A") = false := beq_eq_false_iff_ne.mpr h3
  have e4 : (s == "Series B") = false := beq_eq_false_iff_ne.mpr h4
  have e5 : (s == "Series C") = false := beq_eq_false_iff_ne.mpr h5
  constructor <;>
    simp [get_stage_weights, get_stage_thresholds, stage_weights_table,
      stage_thresholds_table, List.lookup, e1, e2, e3, e4, e5]

/-- C8 witness: the unknown stage `unicorn_plus` resolves to the seed
profile without an error. -/
theorem stage_lookup_fallback_to_seed_witness :
    "unicorn_plus" ∉ ["Pre-seed", "Seed", "Series A", "Series B", "Series C"] ∧
      (get_stage_weights "unicorn_plus" = get_stage_weights "Seed" ∧
        get_stage_thresholds "unicorn_plus" = get_stage_thresholds "Seed") :=
  ⟨by decide, stage_lookup_fallback_to_seed "unicorn_plus" (by decide)⟩

/-- C2: the probability returned by `evaluate_startup_comprehensive` is
consistent with its verdict — FAIL caps it at 0.45, CONDITIONAL PASS
clamps it into [0.45, 0.65], PASS floors it at 0.55 — and it always lies
in [0,1] when the base probability does. -/
theorem adjusted_probability_consistent_with_verdict (ps : PillarScores)
    (d : MetricsData) (b : ℚ) (h0 : 0 ≤ b) (h1 : b ≤ 1) :
    ((evaluate_startup_comprehensive ps d b).verdict = "FAIL" →
      (evaluate_startup_comprehensive ps d b).adjusted_probability ≤ 0.45) ∧
    ((evaluate_startup_comprehensive ps d b).verdict = "CONDITIONAL PASS" →
      0.45 ≤ (evaluate_startup_comprehensive ps d b).adjusted_probability ∧
        (evaluate_startup_comprehensive ps d b).adjusted_probability ≤ 0.65) ∧
    ((evaluate_startup_comprehensive ps d b).verdict = "PASS" →
      0.55 ≤ (evaluate_startup_comprehensive ps d b).adjusted_probability) ∧
    0 ≤ (evaluate_startup_comprehensive ps d b).adjusted_probability ∧
    (evaluate_startup_comprehensive ps d b).adjusted_probability ≤ 1 := by
  have hv : (evaluate_startup_comprehensive ps d b).adjusted_probability =
      reconcile_probability (evaluate_startup_comprehensive ps d b).verdict b := rfl
  refine ⟨fun h => ?_, fun h => ?_, fun h => ?_, ?_, ?_⟩
  · rw [hv, h]
    simp only [reconcile_probability, if_pos rfl]
    exact min_le_right _ _
  · rw [hv, h]
    simp only [reconcile_probability, if_neg (by decide : ¬ ("CONDITIONAL PASS" = "FAIL")),
      if_pos rfl]
    exact ⟨le_max_left _ _, max_le (by norm_num) (min_le_right _ _)⟩
  · rw [hv, h]
    simp only [reconcile_probability, if_neg (by decide : ¬ ("PASS" = "FAIL")),
      if_neg (by decide : ¬ ("PASS" = "CONDITIONAL PASS"))]
    exact le_max_left _ _
  · rw [hv]
    unfold reconcile_probability
    split_ifs
    · exact le_min h0 (by norm_num)
    · exact le_trans (by norm_num) (le_max_left _ _)
    · exact le_trans (by norm_num) (le_max_left _ _)
  · rw [hv]
    unfold reconcile_probability
    split_ifs
    · exact le_trans (min_le_left _ _) h1
    · exact max_le (by norm_num) (le_trans (min_le_right _ _) (by norm_num))
    · exact max_le (by norm_num) h1

/-- C2 witness: at base probability 0, all consistency bounds hold for
the evaluation on the empty metrics dict. -/
theorem adjusted_probability_consistent_with_verdict_witness :
    ((evaluate_startup_comprehensive ⟨0, 0, 0, 0⟩ emptyData 0).verdict = "FAIL" →
      (evaluate_startup_comprehensive ⟨0, 0, 0, 0⟩ emptyData 0).adjusted_probability ≤ 0.45) ∧
    ((evaluate_startup_comprehensive ⟨0, 0, 0, 0⟩ emptyData 0).verdict = "CONDITIONAL PASS" →
      0.45 ≤ (evaluate_startup_comprehensive ⟨0, 0, 0, 0⟩ emptyData 0).adjusted_probability ∧
        (evaluate_startup_comprehensive ⟨0, 0, 0, 0⟩ emptyData 0).adjusted_probability ≤ 0.65) ∧
    ((evaluate_startup_comprehensive ⟨0, 0, 0, 0⟩ emptyData 0).verdict = "PASS" →
      0.55 ≤ (evaluate_startup_comprehensive ⟨0, 0, 0, 0⟩ emptyData 0).adjusted_probability) ∧
    0 ≤ (evaluate_startup_comprehensive ⟨0, 0, 0, 0⟩ emptyData 0).adjusted_probability ∧
    (evaluate_startup_comprehensive ⟨0, 0, 0, 0⟩ emptyData 0).adjusted_probability ≤ 1 :=
  adjusted_probability_consistent_with_verdict ⟨0, 0, 0, 0⟩ emptyData 0
    (le_refl 0) zero_le_one

/-- C6: the model-family fusion equals the available-opinion weighted
average — numerator `base + 0.2·stage + 0.15·industry +
0.1·temporal_medium` and denominator `1 + Σ included weights`, each term
present only when that opinion is — and with no auxiliary opinion the
blend returns the base probability unchanged. -/
theorem fusion_weighted_average (base : ℚ) (s i : Option ℚ)
    (tp : Option (List (String × ℚ))) :
    fuse_probabilities base s i tp =
        fusionNumerator base s i (temporal_medium tp) /
          fusionDenominator s i (temporal_medium tp) ∧
      fuse_probabilities base none none none = base := by
  constructor
  · rcases tp with _ | tl
    · rcases s with _ | p <;> rcases i with _ | q <;>
        simp only [fuse_probabilities, fusionNumerator, fusionDenominator,
          temporal_medium, Option.bind_none] <;> norm_num
    · rcases hm : tl.lookup "medium_term" with _ | v
      · rcases tl with _ | ⟨hd, tl'⟩
        · rcases s with _ | p <;> rcases i with _ | q <;>
            simp only [fuse_probabilities, fusionNumerator, fusionDenominator,
              temporal_medium, Option.bind_some, List.lookup_nil] <;> norm_num
        · rcases s with _ | p <;> rcases i with _ | q <;>
            simp only [fuse_probabilities, fusionNumerator, fusionDenominator,
              temporal_medium, Option.bind_some, hm] <;>
            norm_num [List.cons_ne_nil, hm]
      · have hne : tl ≠ [] := by rintro rfl; simp [List.lookup] at hm
        rcases s with _ | p <;> rcases i with _ | q <;>
          simp only [fuse_probabilities, fusionNumerator, fusionDenominator,
            temporal_medium, Option.bind_some, hm, if_pos hne] <;> norm_num [hm]
  · simp only [fuse_probabilities]
    norm_num

/-- Helper: membership in a conditional singleton block. -/
theorem mem_ite_nil {x m : String} {c : Prop} [Decidable c] :
    x ∈ (if c then [m] else ([] : List String)) ↔ c ∧ x = m := by
  split <;> simp_all

/-- C9: a metrics dict without `runway_months` defaults the value to 0
and therefore always reports the sub-3-months-runway critical failure,
whereas a dict without `churn_rate` never reports the churn failure. -/
theorem missing_runway_fires_missing_churn_silent (d : MetricsData) :
    (d.runway_months = none → runwayFailureMsg ∈ check_critical_failures d) ∧
      (d.churn_rate = none → churnFailureMsg ∉ check_critical_failures d) := by
  constructor
  · intro h
    unfold check_critical_failures
    rw [h]
    simp only [Option.getD_none, List.mem_append, mem_ite_nil]
    norm_num
  · intro h
    unfold check_critical_failures
    rw [h]
    simp only [Option.getD_none, List.mem_append, mem_ite_nil,
      runwayFailureMsg, burnFailureMsg, concentrationFailureMsg,
      churnFailureMsg, founderFailureMsg]
    norm_num
    refine ⟨⟨⟨fun _ => ?_, fun _ => ?_⟩, fun _ => ?_⟩, fun _ _ => ?_⟩ <;> decide

/-- C9 witness: on the empty metrics dict the runway failure is reported
and the churn failure is not. -/
theorem missing_runway_fires_missing_churn_silent_witness :
    (runwayFailureMsg ∈ check_critical_failures emptyData) ∧
      (churnFailureMsg ∉ check_critical_failures emptyData) :=
  ⟨(missing_runway_fires_missing_churn_silent emptyData).1 rfl,
   (missing_runway_fires_missing_churn_silent emptyData).2 rfl⟩

/-- Helper: a pointwise property through a conditional block. -/
theorem forall_mem_ite {α : Type} {c : Prop} [Decidable c] {l1 l2 : List α}
    {p : α → Prop} (h1 : ∀ x ∈ l1, p x) (h2 : ∀ x ∈ l2, p x) :
    ∀ x ∈ (if c then l1 else l2), p x := by
  split <;> assumption

/-- Helper: in a truncation of a critical-prefix concatenation, critical
entries sit strictly before non-critical ones. -/
theorem take_append_critical_first (a b : List Insight) (n i j : ℕ)
    (ha : ∀ x ∈ a, x.isCritical = true) (hb : ∀ x ∈ b, x.isCritical = false)
    (hi : i < ((a ++ b).take n).length) (hj : j < ((a ++ b).take n).length)
    (hpi : (((a ++ b).take n).get ⟨i, hi⟩).isCritical = true)
    (hpj : (((a ++ b).take n).get ⟨j, hj⟩).isCritical = false) : i < j := by
  have hi2 : i < (a ++ b).length :=
    lt_of_lt_of_le hi (by rw [List.length_take]; exact min_le_right _ _)
  have hj2 : j < (a ++ b).length :=
    lt_of_lt_of_le hj (by rw [List.length_take]; exact min_le_right _ _)
  simp only [List.get_eq_getElem, List.getElem_take] at hpi hpj
  have hia : i < a.length := by
    by_contra hna
    push_neg at hna
    rw [List.getElem_append_right hna] at hpi
    rw [hb _ (List.getElem_mem _)] at hpi
    simp at hpi
  have hja : a.length ≤ j := by
    by_contra hnj
    push_neg at hnj
    rw [List.getElem_append_left hnj] at hpj
    rw [ha _ (List.getElem_mem _)] at hpj
    simp at hpj
  exact lt_of_lt_of_le hia hja

/-- C10: `generate_insights` returns at most 6 insights, and every
critical runway/burn warning precedes every pillar, growth/retention and
concentration/churn insight in the returned sequence. -/
theorem generate_insights_capped_and_ordered (d : MetricsData)
    (ps : Option PillarScores) (l : List Insight)
    (h : generate_insights d ps = some l) :
    l.length ≤ 6 ∧
      ∀ i j (hi : i < l.length) (hj : j < l.length),
        (l.get ⟨i, hi⟩).isCritical = true →
          (l.get ⟨j, hj⟩).isCritical = false → i < j := by
  obtain ⟨fs, rm, bm, cc, ch, fc, kp, rr, ci, hdt, der, itp, nep, scs, pse,
    tdp, pct, ndr, rgr, prd⟩ := d
  rcases rm with _ | runway
  · simp [generate_insights] at h
  rcases bm with _ | burn
  · simp [generate_insights] at h
  rcases rgr with _ | growth
  · simp [generate_insights] at h
  rcases ndr with _ | ndrv
  · simp [generate_insights] at h
  rcases prd with _ | ret30
  · simp [generate_insights] at h
  rcases cc with _ | conc
  · simp [generate_insights] at h
  simp only [generate_insights, Option.some_inj] at h
  subst h
  constructor
  · rw [List.length_take]
    exact min_le_left _ _
  · intro i j hi hj hpi hpj
    refine take_append_critical_first _ _ 6 i j ?_ ?_ hi hj hpi hpj
    · refine List.forall_mem_append.mpr ⟨?_, ?_⟩
      · exact forall_mem_ite (List.forall_mem_singleton.mpr rfl)
          (forall_mem_ite (List.forall_mem_singleton.mpr rfl) (by simp))
      · exact forall_mem_ite (List.forall_mem_singleton.mpr rfl) (by simp)
    · refine List.forall_mem_append.mpr ⟨List.forall_mem_append.mpr
        ⟨List.forall_mem_append.mpr ⟨List.forall_mem_append.mpr
          ⟨List.forall_mem_append.mpr ⟨?_, ?_⟩, ?_⟩, ?_⟩, ?_⟩, ?_⟩
      · rcases ps with _ | pp
        · simp
        · refine List.forall_mem_append.mpr ⟨List.forall_mem_append.mpr
            ⟨List.forall_mem_append.mpr ⟨?_, ?_⟩, ?_⟩, ?_⟩ <;>
            exact forall_mem_ite (List.forall_mem_singleton.mpr rfl)
              (forall_mem_ite (List.forall_mem_singleton.mpr rfl) (by simp))
      · exact forall_mem_ite (List.forall_mem_singleton.mpr rfl)
          (forall_mem_ite (List.forall_mem_singleton.mpr rfl) (by simp))
      · exact forall_mem_ite (List.forall_mem_singleton.mpr rfl) (by simp)
      · exact forall_mem_ite (List.forall_mem_singleton.mpr rfl) (by simp)
      · exact forall_mem_ite (List.forall_mem_singleton.mpr rfl) (by simp)
      · exact forall_mem_ite (List.forall_mem_singleton.mpr rfl) (by simp)

/-- Helper: `generate_insights` on the sample dict yields exactly the
critical runway warning. -/
theorem generate_insights_insightData_eval :
    generate_insights insightData none = some [Insight.runwayCritical] := by
  simp [generate_insights, insightData, emptyData]
  norm_num

/-- C10 witness: the sample evaluation satisfies the cap and the
critical-first ordering. -/
theorem generate_insights_capped_and_ordered_witness :
    [Insight.runwayCritical].length ≤ 6 ∧
      ∀ i j (hi : i < [Insight.runwayCritical].length)
        (hj : j < [Insight.runwayCritical].length),
        ([Insight.runwayCritical].get ⟨i, hi⟩).isCritical = true →
          ([Insight.runwayCritical].get ⟨j, hj⟩).isCritical = false → i < j :=
  generate_insights_capped_and_ordered insightData none [Insight.runwayCritical]
    generate_insights_insightData_eval

end Theorems

end Flash
